import Mathlib

/-!
Shallow embedding of the TicTacToe game engine
(`src/apps/game/services.py`, `src/apps/game/models.py`).

Players (Django `User` rows) are identified by their (unique) username.
Board cells are `Option Mark`, with `none` for Python `None`.
Timestamps (`timezone.now()`) are an abstract tick passed in as `now`.
-/

/-- A board mark: the Python strings `'X'` and `'O'`. -/
inductive Mark where
  | X
  | O
deriving DecidableEq, Repr

/-- A board cell: Python `None | 'X' | 'O'`. -/
abbrev Cell := Option Mark

/-- An opaque player identity (the Django user's unique username). -/
abbrev Player := String

/-- `Game.Status` from `models.py`. -/
inductive Status where
  | waiting
  | inProgress
  | finished
  | draw
deriving DecidableEq, Repr

/-- A `Move` row (`models.py`): owning game and `created_at` are implicit in
the per-game ordered log kept on `Game`. The symbol field carries exactly
what `make_move` passes to `Move.objects.create`, namely
`game.get_player_symbol(player)` (an `Optional[str]` in Python). -/
structure MoveRec where
  player : Player
  position : Int
  symbol : Option Mark
deriving DecidableEq, Repr

/-- The `Game` model (`models.py`): players, status, 9-cell board,
current turn, winner, finish timestamp, plus the ordered `Move` log that
Django keeps as the `moves` related set ordered by `created_at`. -/
structure Game where
  id : String
  player1 : Player
  player2 : Option Player
  status : Status
  board : List Cell
  currentTurn : Mark
  winner : Option Player
  finishedAt : Option Nat
  moves : List MoveRec
deriving DecidableEq, Repr

/-- `GameService.WINNING_COMBINATIONS` (`services.py` lines 19–28):
three rows, three columns, two diagonals, in source order. -/
def WINNING_COMBINATIONS : List (Nat × Nat × Nat) :=
  [(0, 1, 2), (3, 4, 5), (6, 7, 8),
   (0, 3, 6), (1, 4, 7), (2, 5, 8),
   (0, 4, 8), (2, 4, 6)]

/-- Read `board[i]` for the constant indices `0..8` used by the service;
out-of-bounds reads (impossible on a 9-cell board) default to empty. -/
def cellAt (b : List Cell) (i : Nat) : Cell :=
  (b.get? i).getD none

/-- The loop body condition of `GameService._check_winner`:
`board[c0] is not None and board[c0] == board[c1] == board[c2]`. -/
def comboWins (b : List Cell) (c : Nat × Nat × Nat) : Bool :=
  (cellAt b c.1).isSome && (cellAt b c.1 == cellAt b c.2.1)
    && (cellAt b c.2.1 == cellAt b c.2.2)

/-- `GameService._check_winner` (`services.py` lines 156–171): return the
mark at the head of the first winning combination whose three cells are
equal and non-empty, else `None`. -/
def check_winner (b : List Cell) : Option Mark :=
  match WINNING_COMBINATIONS.find? (fun c => comboWins b c) with
  | some c => cellAt b c.1
  | none => none

/-- `GameService._is_board_full` (`services.py` lines 173–184):
`None not in board`. -/
def is_board_full (b : List Cell) : Bool :=
  b.all (fun c => c.isSome)

/-- `Game.get_player_symbol` (`models.py` lines 102–108). -/
def get_player_symbol (g : Game) (u : Player) : Option Mark :=
  if u = g.player1 then some Mark.X
  else if some u = g.player2 then some Mark.O
  else none

/-- `Game.is_player_turn` (`models.py` lines 110–112): Python compares the
`Optional[str]` symbol against the `'X'`/`'O'` string `current_turn`. -/
def is_player_turn (g : Game) (u : Player) : Bool :=
  get_player_symbol g u == some g.currentTurn

/-- `Game.get_available_positions` (`models.py` lines 114–116). -/
def get_available_positions (g : Game) : List Nat :=
  (List.range g.board.length).filter (fun i => cellAt g.board i == none)

/-- `Game.is_position_available` (`models.py` lines 118–120), pure value:
`0 <= position <= 8 and self.board[position] is None`. -/
def is_position_available (g : Game) (pos : Int) : Bool :=
  decide (0 ≤ pos) && decide (pos ≤ 8) && (cellAt g.board pos.toNat == none)

/-- Python list subscript semantics for `board[position]` on an `Int`
index: a non-negative index must be `< len`, a negative index counts from
the end, anything else raises `IndexError` (modelled as `Except.error`). -/
def pyGet (l : List Cell) (i : Int) : Except Unit Cell :=
  if 0 ≤ i then
    match l.get? i.toNat with
    | some c => Except.ok c
    | none => Except.error ()
  else
    match l.get? ((l.length : Int) + i).toNat with
    | some c => if 0 ≤ (l.length : Int) + i then Except.ok c else Except.error ()
    | none => Except.error ()

/-- `Game.is_position_available` with Python's exception-raising subscript
made explicit: the `and` short-circuits, so `board[position]` is evaluated
only when `0 <= position <= 8` already holds. -/
def is_position_availableE (g : Game) (pos : Int) : Except Unit Bool :=
  if 0 ≤ pos ∧ pos ≤ 8 then
    match pyGet g.board pos with
    | Except.ok c => Except.ok (c == none)
    | Except.error e => Except.error e
  else
    Except.ok false

/-- The four `ValidationError` raise sites of `GameService.make_move`
(`services.py` lines 97–108), one constructor per distinct message.
Both an occupied cell and an out-of-range position flow through the single
`is_position_available` check and raise the same
`f'Position {position} is not available.'` message. -/
inductive MoveError where
  | gameNotInProgress
  | notAPlayer
  | notYourTurn
  | positionNotAvailable (pos : Int)
deriving DecidableEq, Repr

/-- The exact message string `GameService.make_move` raises for each
`MoveError`. -/
def moveErrorMessage : MoveError → String
  | MoveError.gameNotInProgress => "Game is not in progress."
  | MoveError.notAPlayer => "You are not a player in this game."
  | MoveError.notYourTurn => "It is not your turn."
  | MoveError.positionNotAvailable pos => s!"Position {pos} is not available."

/-- The three `ValidationError` raise sites of `GameService.join_game`
(`services.py` lines 66–73). -/
inductive JoinError where
  | notAvailableToJoin
  | cannotPlayYourself
  | alreadyTwoPlayers
deriving DecidableEq, Repr

/-- The `game_state` dict `GameService.make_move` builds on success
(`services.py` lines 141–152). -/
structure MoveSnapshot where
  game_id : String
  board : List Cell
  status : Status
  current_turn : Mark
  winner : Option Player
  last_move : MoveRec
deriving DecidableEq, Repr

/-- The literal key set of the `game_state` dict returned by
`GameService.make_move` (`services.py` lines 141–152), in source order. -/
def moveSnapshotKeys : List String :=
  ["game_id", "board", "status", "current_turn", "winner", "last_move"]

/-- The literal key set of the dict returned by
`GameService.get_game_state` (`services.py` lines 197–214), in source
order. -/
def gameStateKeys : List String :=
  ["game_id", "status", "board", "current_turn", "player1", "player2",
   "winner", "available_positions", "created_at", "finished_at"]

/-- `GameService.join_game` (`services.py` lines 51–79). Validation
failures raise before any field is written, so the returned game is the
input game together with the error; success returns the updated game. -/
def join_game (g : Game) (p2 : Player) : Game × Option JoinError :=
  if g.status = Status.waiting then
    if g.player1 = p2 then (g, some JoinError.cannotPlayYourself)
    else if g.player2 ≠ none then (g, some JoinError.alreadyTwoPlayers)
    else ({ g with player2 := some p2, status := Status.inProgress }, none)
  else (g, some JoinError.notAvailableToJoin)

/-- `GameService.make_move` (`services.py` lines 81–154). The four
validations run, in source order, before any mutation; on success the
board cell is written, a `Move` row is appended, the winner / full-board
checks update status, winner, `finished_at` or flip the turn, and the
`game_state` dict is built. `now` stands for `timezone.now()`. -/
def make_move (now : Nat) (g : Game) (p : Player) (pos : Int) :
    Game × Option (MoveRec × MoveSnapshot) × Option MoveError :=
  if g.status = Status.inProgress then
    if p = g.player1 ∨ some p = g.player2 then
      if is_player_turn g p then
        if is_position_available g pos then
          let symbol := get_player_symbol g p
          let board1 := g.board.set pos.toNat symbol
          let mv : MoveRec := ⟨p, pos, symbol⟩
          let g1 : Game := { g with board := board1, moves := g.moves ++ [mv] }
          let g2 : Game :=
            match check_winner board1 with
            | some w =>
              { g1 with status := Status.finished,
                        winner := if w = Mark.X then some g.player1 else g.player2,
                        finishedAt := some now }
            | none =>
              if is_board_full board1 then
                { g1 with status := Status.draw, finishedAt := some now }
              else
                { g1 with currentTurn := if g.currentTurn = Mark.X then Mark.O else Mark.X }
          let snap : MoveSnapshot :=
            ⟨g2.id, g2.board, g2.status, g2.currentTurn, g2.winner, mv⟩
          (g2, some (mv, snap), none)
        else (g, none, some (MoveError.positionNotAvailable pos))
      else (g, none, some MoveError.notYourTurn)
    else (g, none, some MoveError.notAPlayer)
  else (g, none, some MoveError.gameNotInProgress)

/-- Spec-side predicate for C1: the three cells of combination `c` all
hold mark `m` (so the triple is uniform and non-empty). -/
def tripleIs (b : List Cell) (c : Nat × Nat × Nat) (m : Mark) : Prop :=
  cellAt b c.1 = some m ∧ cellAt b c.2.1 = some m ∧ cellAt b c.2.2 = some m

/-- Spec-side helper: the participant owning a mark — participant 1 owns
`X`, participant 2 owns `O` (`services.py` line 129). -/
def markOwner (g : Game) (m : Mark) : Option Player :=
  if m = Mark.X then some g.player1 else g.player2

/-- Discriminates the single raise site shared by the occupied-cell and
out-of-range failures of `make_move`. -/
def isPositionNotAvailableError : MoveError → Bool
  | MoveError.positionNotAvailable _ => true
  | _ => false

/-- The raise site (constructor) of a `MoveError`, numbered in source
order; two errors are caller-distinguishable only if their kinds (or
embedded data) differ. -/
def moveErrorKind : MoveError → Nat
  | MoveError.gameNotInProgress => 0
  | MoveError.notAPlayer => 1
  | MoveError.notYourTurn => 2
  | MoveError.positionNotAvailable _ => 3

/-- A fresh in-progress demo game: empty board, X (alice) to move. -/
def gDemo : Game :=
  ⟨"g1", "alice", some "bob", Status.inProgress,
   [none, none, none, none, none, none, none, none, none], Mark.X, none, none, []⟩

/-- Demo game one move from an X win on the top row: X at 0,1 and O at
3,4, X (alice) to move. -/
def gWin : Game :=
  ⟨"g2", "alice", some "bob", Status.inProgress,
   [some Mark.X, some Mark.X, none, some Mark.O, some Mark.O, none, none, none, none],
   Mark.X, none, none, []⟩

/-- The move record produced by alice playing position 2 in `gWin`. -/
def mvWin : MoveRec := ⟨"alice", 2, some Mark.X⟩

/-- The game resulting from alice playing position 2 in `gWin`
(top row complete, finished, alice wins). -/
def gWinAfter : Game :=
  ⟨"g2", "alice", some "bob", Status.finished,
   [some Mark.X, some Mark.X, some Mark.X, some Mark.O, some Mark.O, none, none, none, none],
   Mark.X, some "alice", some 0, [mvWin]⟩

/-- The snapshot produced by alice playing position 2 in `gWin`. -/
def snapWin : MoveSnapshot :=
  ⟨"g2", gWinAfter.board, Status.finished, Mark.X, some "alice", mvWin⟩

/-- A demo game still waiting for its second player. -/
def gWaiting : Game :=
  ⟨"g0", "alice", none, Status.waiting,
   [none, none, none, none, none, none, none, none, none], Mark.X, none, none, []⟩

theorem comboWins_iff (b : List Cell) (c : Nat × Nat × Nat) :
    comboWins b c = true ↔ ∃ m : Mark, tripleIs b c m := by
  unfold comboWins tripleIs
  constructor
  · intro h
    simp only [Bool.and_eq_true, beq_iff_eq] at h
    obtain ⟨⟨hs, h01⟩, h12⟩ := h
    obtain ⟨m, hm⟩ := Option.isSome_iff_exists.mp hs
    exact ⟨m, hm, by rw [← h01, hm], by rw [← h12, ← h01, hm]⟩
  · rintro ⟨m, h0, h1, h2⟩
    simp [h0, h1, h2]

/-- C1: on a 9-cell board, `check_winner` returns `none` iff no winning
combination is uniform and non-empty; whenever it returns a mark, some
winning combination is filled with that mark; and the returned mark is
the mark of the first matching combination in the fixed enumeration
order (rows, columns, diagonals). -/
theorem C1_check_winner_spec (b : List Cell) (_hb : b.length = 9) :
    (check_winner b = none ↔
        ∀ c ∈ WINNING_COMBINATIONS, ∀ m : Mark, ¬ tripleIs b c m)
    ∧ (∀ m : Mark, check_winner b = some m →
        ∃ c ∈ WINNING_COMBINATIONS, tripleIs b c m)
    ∧ (∀ c, WINNING_COMBINATIONS.find? (fun c => comboWins b c) = some c →
        ∀ m : Mark, tripleIs b c m → check_winner b = some m) := by
  refine ⟨?_, ?_, ?_⟩
  · unfold check_winner
    cases hf : WINNING_COMBINATIONS.find? (fun c => comboWins b c) with
    | none =>
      simp only []
      constructor
      · intro _ c hc m hm
        have := List.find?_eq_none.mp hf c hc
        exact this ((comboWins_iff b c).mpr ⟨m, hm⟩)
      · intro _
        trivial
    | some c =>
      have pc : comboWins b c = true := List.find?_some hf
      have hmem : c ∈ WINNING_COMBINATIONS := List.mem_of_find?_eq_some hf
      obtain ⟨m, hm⟩ := (comboWins_iff b c).mp pc
      simp only [hm.1]
      constructor
      · intro h
        exact absurd h (by simp)
      · intro h
        exact absurd hm (h c hmem m)
  · intro m h
    unfold check_winner at h
    cases hf : WINNING_COMBINATIONS.find? (fun c => comboWins b c) with
    | none =>
      rw [hf] at h
      exact absurd h (by simp)
    | some c =>
      rw [hf] at h
      have h2 : cellAt b c.1 = some m := h
      have pc : comboWins b c = true := List.find?_some hf
      have hmem : c ∈ WINNING_COMBINATIONS := List.mem_of_find?_eq_some hf
      obtain ⟨m', hm'⟩ := (comboWins_iff b c).mp pc
      have hmm : m' = m := by
        have h3 := hm'.1
        rw [h2] at h3
        exact (Option.some.inj h3).symm
      exact ⟨c, hmem, hmm ▸ hm'⟩
  · intro c hf m hm
    unfold check_winner
    rw [hf]
    exact hm.1

theorem C1_witness :
    ∃ c ∈ WINNING_COMBINATIONS, tripleIs gWinAfter.board c Mark.X :=
  (C1_check_winner_spec gWinAfter.board (by decide)).2.1 Mark.X (by decide)

/-- C3: a game in a terminal state (Finished or Draw) is absorbing: every
`make_move` call fails with the not-in-progress error and returns the game
unchanged, and every `join_game` call fails with the not-available error
and returns the game unchanged. -/
theorem C3_terminal_absorbing (g : Game)
    (h : g.status = Status.finished ∨ g.status = Status.draw) :
    (∀ (now : Nat) (p : Player) (pos : Int),
        make_move now g p pos = (g, none, some MoveError.gameNotInProgress))
    ∧ (∀ u : Player, join_game g u = (g, some JoinError.notAvailableToJoin)) := by
  have h1 : ¬ g.status = Status.inProgress := by
    rcases h with h | h <;> simp [h]
  have h2 : ¬ g.status = Status.waiting := by
    rcases h with h | h <;> simp [h]
  constructor
  · intro now p pos
    unfold make_move
    rw [if_neg h1]
  · intro u
    unfold join_game
    rw [if_neg h2]

theorem C3_witness :
    make_move 7 gWinAfter "bob" 5 = (gWinAfter, none, some MoveError.gameNotInProgress)
    ∧ join_game gWinAfter "carol" = (gWinAfter, some JoinError.notAvailableToJoin) :=
  ⟨(C3_terminal_absorbing gWinAfter (Or.inl (by decide))).1 7 "bob" 5,
   (C3_terminal_absorbing gWinAfter (Or.inl (by decide))).2 "carol"⟩

/-- C5: `join_game` succeeds exactly when the game is Waiting, the joiner
differs from participant 1, and participant 2 is unset; on success it sets
participant 2 and moves the status to InProgress (everything else
untouched); every failing case returns an error and the unchanged game. -/
theorem C5_join_spec (g : Game) (u : Player) :
    ((join_game g u).2 = none ↔
        g.status = Status.waiting ∧ g.player1 ≠ u ∧ g.player2 = none)
    ∧ ((join_game g u).2 = none →
        (join_game g u).1 = { g with player2 := some u, status := Status.inProgress })
    ∧ (∀ e, (join_game g u).2 = some e → (join_game g u).1 = g) := by
  unfold join_game
  by_cases h1 : g.status = Status.waiting
  · by_cases h2 : g.player1 = u
    · simp [h1, h2]
    · by_cases h3 : g.player2 = none
      · simp [h1, h2, h3]
      · simp [h1, h2, h3]
  · simp [h1]

theorem C5_witness :
    (join_game gWaiting "bob").2 = none
    ∧ (join_game gWaiting "bob").1
        = { gWaiting with player2 := some "bob", status := Status.inProgress } := by
  have hnone : (join_game gWaiting "bob").2 = none :=
    (C5_join_spec gWaiting "bob").1.mpr (by decide)
  exact ⟨hnone, (C5_join_spec gWaiting "bob").2.1 hnone⟩

/-- C6: every rule-violation failure of `make_move` or `join_game` leaves
the game exactly as it was: all validations run before any mutation, so a
call that reports an error returns the input game, with no move appended. -/
theorem C6_failure_frame (now : Nat) (g : Game) (p : Player) (pos : Int) (u : Player) :
    (∀ e, (make_move now g p pos).2.2 = some e →
        make_move now g p pos = (g, none, some e))
    ∧ (∀ e, (join_game g u).2 = some e → join_game g u = (g, some e)) := by
  constructor
  · intro e he
    unfold make_move at he ⊢
    by_cases h1 : g.status = Status.inProgress
    · by_cases h2 : p = g.player1 ∨ some p = g.player2
      · by_cases h3 : is_player_turn g p
        · by_cases h4 : is_position_available g pos
          · simp [h1, h2, h3, h4] at he
          · simp only [if_pos h1, if_pos h2, if_pos h3, if_neg h4] at he ⊢
            simp at he
            rw [← he]
        · simp only [if_pos h1, if_pos h2, if_neg h3] at he ⊢
          simp at he
          rw [← he]
      · simp only [if_pos h1, if_neg h2] at he ⊢
        simp at he
        rw [← he]
    · simp only [if_neg h1] at he ⊢
      simp at he
      rw [← he]
  · intro e he
    unfold join_game at he ⊢
    by_cases h1 : g.status = Status.waiting
    · by_cases h2 : g.player1 = u
      · simp only [if_pos h1, if_pos h2] at he ⊢
        simp at he
        rw [← he]
      · by_cases h3 : g.player2 = none
        · simp [h1, h2, h3] at he
        · simp only [if_pos h1, if_neg h2] at he ⊢
          have h3' : g.player2 ≠ none := h3
          simp only [if_pos h3'] at he ⊢
          simp at he
          rw [← he]
    · simp only [if_neg h1] at he ⊢
      simp at he
      rw [← he]

theorem C6_witness :
    make_move 3 gWaiting "alice" 0 = (gWaiting, none, some MoveError.gameNotInProgress)
    ∧ join_game gWaiting "alice" = (gWaiting, some JoinError.cannotPlayYourself) :=
  ⟨(C6_failure_frame 3 gWaiting "alice" 0 "alice").1 MoveError.gameNotInProgress (by decide),
   (C6_failure_frame 3 gWaiting "alice" 0 "alice").2 JoinError.cannotPlayYourself (by decide)⟩

/-- C2: for an in-progress game, a participant whose symbol is the current
turn, and an available position, `make_move` succeeds: it writes the
participant's symbol at the position, appends exactly one move record with
that participant, position and symbol, and then either finishes the game
(winner = the participant owning the winning mark, `finished_at` set),
draws it on a full board (`finished_at` set), or flips the turn and stays
in progress. -/
theorem C2_make_move_success (now : Nat) (g : Game) (p : Player) (pos : Int)
    (hs : g.status = Status.inProgress)
    (ht : get_player_symbol g p = some g.currentTurn)
    (ha : is_position_available g pos = true) :
    ∃ g' snap,
      make_move now g p pos
        = (g', some (⟨p, pos, some g.currentTurn⟩, snap), none)
      ∧ g'.board = g.board.set pos.toNat (some g.currentTurn)
      ∧ g'.moves = g.moves ++ [⟨p, pos, some g.currentTurn⟩]
      ∧ g'.player1 = g.player1 ∧ g'.player2 = g.player2 ∧ g'.id = g.id
      ∧ (∀ w : Mark,
          check_winner (g.board.set pos.toNat (some g.currentTurn)) = some w →
          g'.status = Status.finished ∧ g'.winner = markOwner g w
            ∧ g'.finishedAt = some now)
      ∧ (check_winner (g.board.set pos.toNat (some g.currentTurn)) = none →
          is_board_full (g.board.set pos.toNat (some g.currentTurn)) = true →
          g'.status = Status.draw ∧ g'.finishedAt = some now)
      ∧ (check_winner (g.board.set pos.toNat (some g.currentTurn)) = none →
          is_board_full (g.board.set pos.toNat (some g.currentTurn)) = false →
          g'.status = Status.inProgress
            ∧ g'.currentTurn = (if g.currentTurn = Mark.X then Mark.O else Mark.X)) := by
  have hp : p = g.player1 ∨ some p = g.player2 := by
    unfold get_player_symbol at ht
    by_cases h1 : p = g.player1
    · exact Or.inl h1
    · by_cases h2 : some p = g.player2
      · exact Or.inr h2
      · rw [if_neg h1, if_neg h2] at ht
        exact absurd ht (by simp)
  have hturn : is_player_turn g p = true := by
    unfold is_player_turn
    rw [ht]
    simp
  unfold make_move
  rw [if_pos hs, if_pos hp, if_pos hturn, if_pos ha]
  simp only [ht]
  rcases hw : check_winner (g.board.set pos.toNat (some g.currentTurn)) with _ | w
  · by_cases hf : is_board_full (g.board.set pos.toNat (some g.currentTurn)) = true
    · simp only [hw, hf]
      refine ⟨_, _, rfl, rfl, rfl, rfl, rfl, rfl, ?_, ?_, ?_⟩
      · intro w hww
        exact absurd hww (by simp)
      · intro _ _
        exact ⟨rfl, rfl⟩
      · intro _ hff
        exact absurd hff (by simp)
    · have hf' : is_board_full (g.board.set pos.toNat (some g.currentTurn)) = false := by
        simpa using hf
      simp only [hw, hf']
      refine ⟨_, _, rfl, rfl, rfl, rfl, rfl, rfl, ?_, ?_, ?_⟩
      · intro w hww
        exact absurd hww (by simp)
      · intro _ hff
        exact absurd hff (by simp [hf'])
      · intro _ _
        exact ⟨hs, rfl⟩
  · simp only [hw]
    refine ⟨_, _, rfl, rfl, rfl, rfl, rfl, rfl, ?_, ?_, ?_⟩
    · intro w' hww
      have : w = w' := Option.some.inj hww
      subst this
      exact ⟨rfl, by unfold markOwner; rfl, rfl⟩
    · intro hww
      exact absurd hww (by simp [hw])
    · intro hww
      exact absurd hww (by simp [hw])

theorem C2_witness :
    gDemo.status = Status.inProgress
    ∧ get_player_symbol gDemo "alice" = some gDemo.currentTurn
    ∧ is_position_available gDemo 4 = true
    ∧ (make_move 0 gDemo "alice" 4).2.2 = none
    ∧ (make_move 0 gDemo "alice" 4).1.board
        = gDemo.board.set 4 (some gDemo.currentTurn) := by
  obtain ⟨g', snap, heq, hboard, -⟩ :=
    C2_make_move_success 0 gDemo "alice" 4 (by decide) (by decide) (by decide)
  refine ⟨by decide, by decide, by decide, ?_, ?_⟩
  · rw [heq]
  · rw [heq]
    exact hboard

theorem make_move_success_inv (now : Nat) (g : Game) (p : Player) (pos : Int)
    (g' : Game) (ms : MoveRec × MoveSnapshot)
    (h : make_move now g p pos = (g', some ms, none)) :
    g.status = Status.inProgress
    ∧ (p = g.player1 ∨ some p = g.player2)
    ∧ is_player_turn g p = true
    ∧ is_position_available g pos = true := by
  unfold make_move at h
  by_cases h1 : g.status = Status.inProgress
  · by_cases h2 : p = g.player1 ∨ some p = g.player2
    · by_cases h3 : is_player_turn g p
      · by_cases h4 : is_position_available g pos
        · exact ⟨h1, h2, h3, h4⟩
        · rw [if_pos h1, if_pos h2, if_pos h3, if_neg h4] at h
          simp at h
      · rw [if_pos h1, if_pos h2, if_neg h3] at h
        simp at h
    · rw [if_pos h1, if_neg h2] at h
      simp at h
  · rw [if_neg h1] at h
    simp at h

/-- C10: a successful `make_move` leaves `current_turn` unchanged whenever
it ends the game (Finished or Draw) — it still names the symbol of the
participant who made the final move — and flips it exactly when the game
stays InProgress. -/
theorem C10_turn_frame (now : Nat) (g : Game) (p : Player) (pos : Int)
    (g' : Game) (ms : MoveRec × MoveSnapshot)
    (h : make_move now g p pos = (g', some ms, none)) :
    ((g'.status = Status.finished ∨ g'.status = Status.draw) →
        g'.currentTurn = g.currentTurn
        ∧ get_player_symbol g' p = some g'.currentTurn)
    ∧ (g'.status = Status.inProgress →
        g'.currentTurn = (if g.currentTurn = Mark.X then Mark.O else Mark.X)
        ∧ g'.currentTurn ≠ g.currentTurn) := by
  obtain ⟨h1, h2, h3, h4⟩ := make_move_success_inv now g p pos g' ms h
  have hsym : get_player_symbol g p = some g.currentTurn := by
    unfold is_player_turn at h3
    exact eq_of_beq h3
  unfold make_move at h
  rw [if_pos h1, if_pos h2, if_pos h3, if_pos h4] at h
  simp only [hsym] at h
  rcases hw : check_winner (g.board.set pos.toNat (some g.currentTurn)) with _ | w
  · by_cases hf : is_board_full (g.board.set pos.toNat (some g.currentTurn)) = true
    · simp only [hw, hf] at h
      simp only [Prod.mk.injEq] at h
      obtain ⟨hg, -, -⟩ := h
      subst hg
      constructor
      · intro _
        exact ⟨rfl, hsym⟩
      · intro hcontra
        exact absurd hcontra (by simp)
    · simp only [hw, hf] at h
      simp only [Prod.mk.injEq] at h
      obtain ⟨hg, -, -⟩ := h
      subst hg
      constructor
      · intro hcontra
        rcases hcontra with hc | hc <;>
          · simp only [h1] at hc
            exact absurd hc (by simp)
      · intro _
        refine ⟨rfl, ?_⟩
        cases hx : g.currentTurn <;> simp [hx]
  · simp only [hw] at h
    simp only [Prod.mk.injEq] at h
    obtain ⟨hg, -, -⟩ := h
    subst hg
    constructor
    · intro _
      exact ⟨rfl, hsym⟩
    · intro hcontra
      exact absurd hcontra (by simp)

theorem C10_witness :
    gWinAfter.currentTurn = gWin.currentTurn
    ∧ get_player_symbol gWinAfter "alice" = some gWinAfter.currentTurn :=
  (C10_turn_frame 0 gWin "alice" 2 gWinAfter (mvWin, snapWin) (by decide)).1
    (Or.inl (by decide))

theorem get_player_symbol_update (g : Game) (u : Player) (b : List Cell)
    (mvs : List MoveRec) :
    get_player_symbol { g with board := b, moves := mvs } u
      = get_player_symbol g u := rfl

/-- C7 counterexample: alice's accepted winning move at position 2 of
`gWin` finishes the game, and replaying the identical request fails with
the not-in-progress error — which is neither the occupied-position error
nor the out-of-turn error the claim allows. -/
theorem C7_counterexample :
    (make_move 0 gWin "alice" 2).2.2 = none
    ∧ (make_move 0 gWin "alice" 2).2.1.isSome = true
    ∧ (make_move 1 (make_move 0 gWin "alice" 2).1 "alice" 2).2.2
        = some MoveError.gameNotInProgress
    ∧ MoveError.gameNotInProgress ≠ MoveError.notYourTurn
    ∧ isPositionNotAvailableError MoveError.gameNotInProgress = false := by
  decide

/-- C7 amended: replaying an accepted move request against the resulting
state always fails, with the out-of-turn error when the game is still
InProgress, and with the not-in-progress error when the accepted move
finished the game (win or draw). -/
theorem C7_amended_replay (now now2 : Nat) (g : Game) (p : Player) (pos : Int)
    (g' : Game) (ms : MoveRec × MoveSnapshot)
    (h : make_move now g p pos = (g', some ms, none)) :
    (make_move now2 g' p pos).2.2
      = some (if g'.status = Status.inProgress then MoveError.notYourTurn
              else MoveError.gameNotInProgress) := by
  obtain ⟨h1, h2, h3, h4⟩ := make_move_success_inv now g p pos g' ms h
  have hsym : get_player_symbol g p = some g.currentTurn := by
    unfold is_player_turn at h3
    exact eq_of_beq h3
  unfold make_move at h
  rw [if_pos h1, if_pos h2, if_pos h3, if_pos h4] at h
  simp only [hsym] at h
  rcases hw : check_winner (g.board.set pos.toNat (some g.currentTurn)) with _ | w
  · by_cases hf : is_board_full (g.board.set pos.toNat (some g.currentTurn)) = true
    · simp only [hw, hf] at h
      simp only [Prod.mk.injEq] at h
      obtain ⟨hg, -, -⟩ := h
      subst hg
      simp [make_move]
    · simp only [hw, hf] at h
      simp only [Prod.mk.injEq] at h
      obtain ⟨hg, -, -⟩ := h
      subst hg
      have hflip : ¬ (g.currentTurn = (if g.currentTurn = Mark.X then Mark.O else Mark.X)) := by
        cases g.currentTurn <;> simp
      have hturn2 : ¬ (is_player_turn
          { g with board := g.board.set pos.toNat (some g.currentTurn),
                   moves := g.moves ++ [⟨p, pos, some g.currentTurn⟩],
                   currentTurn := if g.currentTurn = Mark.X then Mark.O else Mark.X } p
            = true) := by
        unfold is_player_turn
        rw [show get_player_symbol
            { g with board := g.board.set pos.toNat (some g.currentTurn),
                     moves := g.moves ++ [⟨p, pos, some g.currentTurn⟩],
                     currentTurn := if g.currentTurn = Mark.X then Mark.O else Mark.X } p
              = get_player_symbol g p from rfl, hsym]
        simp [hflip]
      show (make_move now2
          { g with board := g.board.set pos.toNat (some g.currentTurn),
                   moves := g.moves ++ [⟨p, pos, some g.currentTurn⟩],
                   currentTurn := if g.currentTurn = Mark.X then Mark.O else Mark.X }
          p pos).2.2
        = some (if Game.status
              { g with board := g.board.set pos.toNat (some g.currentTurn),
                       moves := g.moves ++ [⟨p, pos, some g.currentTurn⟩],
                       currentTurn := if g.currentTurn = Mark.X then Mark.O else Mark.X }
              = Status.inProgress
            then MoveError.notYourTurn else MoveError.gameNotInProgress)
      unfold make_move
      rw [if_pos (show Game.status
            { g with board := g.board.set pos.toNat (some g.currentTurn),
                     moves := g.moves ++ [⟨p, pos, some g.currentTurn⟩],
                     currentTurn := if g.currentTurn = Mark.X then Mark.O else Mark.X }
            = Status.inProgress from h1),
          if_pos (show p = Game.player1
              { g with board := g.board.set pos.toNat (some g.currentTurn),
                       moves := g.moves ++ [⟨p, pos, some g.currentTurn⟩],
                       currentTurn := if g.currentTurn = Mark.X then Mark.O else Mark.X }
            ∨ some p = Game.player2
              { g with board := g.board.set pos.toNat (some g.currentTurn),
                       moves := g.moves ++ [⟨p, pos, some g.currentTurn⟩],
                       currentTurn := if g.currentTurn = Mark.X then Mark.O else Mark.X }
            from h2),
          if_neg hturn2]
      simp [h1]
  · simp only [hw] at h
    simp only [Prod.mk.injEq] at h
    obtain ⟨hg, -, -⟩ := h
    subst hg
    simp [make_move]

theorem C7_witness :
    (make_move 1 gWinAfter "alice" 2).2.2
      = some (if gWinAfter.status = Status.inProgress then MoveError.notYourTurn
              else MoveError.gameNotInProgress) :=
  C7_amended_replay 0 1 gWin "alice" 2 gWinAfter (mvWin, snapWin) (by decide)

/-- The game resulting from alice playing position 4 in `gDemo`. -/
def gDemoAfter : Game :=
  ⟨"g1", "alice", some "bob", Status.inProgress,
   [none, none, none, none, some Mark.X, none, none, none, none],
   Mark.O, none, none, [⟨"alice", 4, some Mark.X⟩]⟩

/-- The move record produced by alice playing position 4 in `gDemo`. -/
def mvDemo : MoveRec := ⟨"alice", 4, some Mark.X⟩

/-- The snapshot produced by alice playing position 4 in `gDemo`. -/
def snapDemo : MoveSnapshot :=
  ⟨"g1", gDemoAfter.board, Status.inProgress, Mark.O, none, mvDemo⟩

/-- C8 counterexample: alice's accepted move at position 4 of `gDemo`
succeeds, yet the `game_state` dict `make_move` returns carries no
`available_positions` entry — that key exists only in the dict built by
`get_game_state`. -/
theorem C8_counterexample :
    (make_move 0 gDemo "alice" 4).2.2 = none
    ∧ (make_move 0 gDemo "alice" 4).2.1.isSome = true
    ∧ "available_positions" ∉ moveSnapshotKeys
    ∧ "available_positions" ∈ gameStateKeys := by
  refine ⟨by decide, by decide, by decide, by decide⟩

/-- C8 amended: the snapshot a successful `make_move` returns carries the
game id, board, status, current turn, winner and last move (player,
position, symbol) of the updated game — but not the list of available
positions, which appears only among `get_game_state`'s keys. -/
theorem C8_amended_snapshot (now : Nat) (g : Game) (p : Player) (pos : Int)
    (g' : Game) (mv : MoveRec) (snap : MoveSnapshot)
    (h : make_move now g p pos = (g', some (mv, snap), none)) :
    snap.game_id = g'.id ∧ snap.board = g'.board ∧ snap.status = g'.status
    ∧ snap.current_turn = g'.currentTurn ∧ snap.winner = g'.winner
    ∧ snap.last_move = mv ∧ mv.player = p ∧ mv.position = pos
    ∧ "available_positions" ∉ moveSnapshotKeys
    ∧ "available_positions" ∈ gameStateKeys := by
  obtain ⟨h1, h2, h3, h4⟩ := make_move_success_inv now g p pos g' (mv, snap) h
  unfold make_move at h
  rw [if_pos h1, if_pos h2, if_pos h3, if_pos h4] at h
  simp only [Prod.mk.injEq, Option.some.injEq] at h
  obtain ⟨hg, ⟨hmv, hsnap⟩, -⟩ := h
  subst hg
  subst hmv
  subst hsnap
  refine ⟨rfl, rfl, rfl, rfl, rfl, rfl, rfl, rfl, by decide, by decide⟩

theorem C8_witness :
    snapDemo.game_id = gDemoAfter.id
    ∧ snapDemo.board = gDemoAfter.board
    ∧ "available_positions" ∉ moveSnapshotKeys :=
  ⟨(C8_amended_snapshot 0 gDemo "alice" 4 gDemoAfter mvDemo snapDemo (by decide)).1,
   (C8_amended_snapshot 0 gDemo "alice" 4 gDemoAfter mvDemo snapDemo (by decide)).2.1,
   (C8_amended_snapshot 0 gDemo "alice" 4 gDemoAfter mvDemo snapDemo
      (by decide)).2.2.2.2.2.2.2.2.1⟩

theorem is_position_available_false_of_not_range (g : Game) (pos : Int)
    (hr : ¬ (0 ≤ pos ∧ pos ≤ 8)) : is_position_available g pos = false := by
  unfold is_position_available
  by_cases h0 : 0 ≤ pos
  · have h8 : ¬ pos ≤ 8 := fun h => hr ⟨h0, h⟩
    simp [h0, h8]
  · simp [h0]

/-- C4 counterexample: with alice on turn in `gWin`, the occupied in-range
position 0 and the out-of-range position 9 both fail through the single
`is_position_available` check, producing errors of one and the same kind
(the `Position {position} is not available.` raise site) — there is no
distinct `PositionOutOfRange` error for the caller to distinguish. -/
theorem C4_counterexample :
    make_move 0 gWin "alice" 0 = (gWin, none, some (MoveError.positionNotAvailable 0))
    ∧ make_move 0 gWin "alice" 9 = (gWin, none, some (MoveError.positionNotAvailable 9))
    ∧ ((0 ≤ (0 : Int) ∧ (0 : Int) ≤ 8) ∧ cellAt gWin.board 0 ≠ none)
    ∧ ¬ (0 ≤ (9 : Int) ∧ (9 : Int) ≤ 8)
    ∧ moveErrorKind (MoveError.positionNotAvailable 0)
        = moveErrorKind (MoveError.positionNotAvailable 9) := by
  decide

/-- C4 amended: for an in-progress game with the participant on turn,
`make_move` fails both on an occupied in-range position and on an
out-of-range position, but with one undifferentiated error — the single
`ValidationError` whose message is `Position {position} is not
available.` — rather than distinct PositionTaken / PositionOutOfRange
errors. -/
theorem C4_amended_single_error (now : Nat) (g : Game) (p : Player) (pos : Int)
    (hs : g.status = Status.inProgress)
    (ht : get_player_symbol g p = some g.currentTurn)
    (hbad : ¬ (0 ≤ pos ∧ pos ≤ 8) ∨ cellAt g.board pos.toNat ≠ none) :
    make_move now g p pos = (g, none, some (MoveError.positionNotAvailable pos))
    ∧ moveErrorMessage (MoveError.positionNotAvailable pos)
        = s!"Position {pos} is not available." := by
  have hp : p = g.player1 ∨ some p = g.player2 := by
    unfold get_player_symbol at ht
    by_cases h1 : p = g.player1
    · exact Or.inl h1
    · by_cases h2 : some p = g.player2
      · exact Or.inr h2
      · rw [if_neg h1, if_neg h2] at ht
        exact absurd ht (by simp)
  have hturn : is_player_turn g p = true := by
    unfold is_player_turn
    rw [ht]
    simp
  have ha : ¬ (is_position_available g pos = true) := by
    rcases hbad with hr | hc
    · simp [is_position_available_false_of_not_range g pos hr]
    · unfold is_position_available
      simp [hc]
  refine ⟨?_, rfl⟩
  unfold make_move
  rw [if_pos hs, if_pos hp, if_pos hturn, if_neg ha]

theorem C4_witness :
    make_move 5 gWin "alice" 9 = (gWin, none, some (MoveError.positionNotAvailable 9))
    ∧ moveErrorMessage (MoveError.positionNotAvailable 9)
        = "Position 9 is not available." :=
  C4_amended_single_error 5 gWin "alice" 9 (by decide) (by decide)
    (Or.inl (by decide))

/-- C9: on a 9-cell board, `is_position_available` with Python's
exception-raising subscript semantics never raises `IndexError` for any
integer position — the `0 <= position <= 8` test short-circuits before
`board[position]` is read — and it agrees with the pure value; an
out-of-range position simply yields `false` (a validation failure), and
whenever the check passes the position indexes inside the board, so the
subsequent `board[position] = symbol` write in `make_move` is in range
too. -/
theorem C9_no_index_error (g : Game) (pos : Int) (hb : g.board.length = 9) :
    is_position_availableE g pos = Except.ok (is_position_available g pos)
    ∧ (¬ (0 ≤ pos ∧ pos ≤ 8) → is_position_available g pos = false)
    ∧ (is_position_available g pos = true → pos.toNat < g.board.length) := by
  refine ⟨?_, fun hr => is_position_available_false_of_not_range g pos hr, ?_⟩
  · unfold is_position_availableE
    by_cases hr : 0 ≤ pos ∧ pos ≤ 8
    · rw [if_pos hr]
      obtain ⟨h0, h8⟩ := hr
      have hlt : pos.toNat < g.board.length := by
        rw [hb]
        omega
      cases hc : g.board.get? pos.toNat with
      | none =>
        have := List.get?_eq_none.mp hc
        omega
      | some c =>
        unfold pyGet
        rw [if_pos h0, hc]
        have hcell : cellAt g.board pos.toNat = c := by
          unfold cellAt
          rw [hc]
          rfl
        unfold is_position_available
        rw [hcell]
        simp [h0, h8]
    · rw [if_neg hr]
      rw [is_position_available_false_of_not_range g pos hr]
  · intro hap
    unfold is_position_available at hap
    simp only [Bool.and_eq_true, decide_eq_true_eq] at hap
    obtain ⟨⟨h0, h8⟩, -⟩ := hap
    rw [hb]
    omega

theorem C9_witness :
    is_position_availableE gDemo (-5) = Except.ok (is_position_available gDemo (-5))
    ∧ is_position_available gDemo (-5) = false
    ∧ is_position_availableE gDemo 11 = Except.ok (is_position_available gDemo 11) :=
  ⟨(C9_no_index_error gDemo (-5) (by decide)).1,
   (C9_no_index_error gDemo (-5) (by decide)).2.1 (by decide),
   (C9_no_index_error gDemo 11 (by decide)).1⟩
